import Mathlib

/-!
Verification of `GenerateFlentTestReport.py` (virt-perf-scripts).

The script is a four-stage batch pipeline: load flent JSON logs into a list
of raw records, extract per-record performance KPIs into flat dicts, build a
seven-column report table, then sort / round / serialize it to CSV.  This
file gives a shallow embedding of that pipeline and settles the frozen
claims about it.

Modelling conventions:
* JSON / Python values are `JValue` (rationals stand in for floats, `Int`
  for Python ints); Python dicts are insertion-ordered association lists
  with distinct keys, and Python dict assignment `d[k] = v` is `dictSet`
  (in-place update when the key exists, append otherwise).
* Fallible code (`try`/`except` blocks returning `(1, None)`) becomes
  `Option`: `none` is the failure status `(1, None)`, `some k` is `(0, k)`.
* Filesystem reads and `json.load` are abstracted: a file is represented by
  its parse outcome `Option JValue` (`none` = the per-file parse error that
  `_get_raw_data_from_flent_log` turns into a `(1, None)` result).
-/

namespace Flent

/-- A JSON / Python value as manipulated by the script.  `nan` models the
float-NaN filler pandas uses for a missing column value; `num` models a
Python float by an exact rational. -/
inductive JValue where
  | null : JValue
  | nan : JValue
  | bool (b : Bool) : JValue
  | str (s : String) : JValue
  | int (n : Int) : JValue
  | num (q : ℚ) : JValue
  | obj (fields : List (String × JValue)) : JValue

/-- Python `d[k]` on a dict value: `some` the stored value, `none` when the
key is absent or the value is not a dict (`KeyError` / `TypeError`, both
caught by the extractor's `try`). -/
def JValue.getKey? : JValue → String → Option JValue
  | .obj fields, k => fields.lookup k
  | _, _ => none

/-- A Python dict with string keys, in insertion order (the representation
of `perf_kpi` and of `SERIES_META`). -/
abbrev KpiDict := List (String × JValue)

/-- Python dict assignment `d[k] = v`: overwrite in place when `k` is
already a key, append `(k, v)` otherwise (insertion order preserved). -/
def dictSet (d : KpiDict) (k : String) (v : JValue) : KpiDict :=
  if d.any (fun p => p.1 = k) then
    d.map (fun p => if p.1 = k then (k, v) else p)
  else
    d ++ [(k, v)]

/-- The whitespace class of the regex `\s` (ASCII part, which is all the
script's commands contain). -/
def pyIsSpace (c : Char) : Bool :=
  c = ' ' || c = '\t' || c = '\n' || c = '\r' || c = '\x0b' || c = '\x0c'

/-- The non-greedy `(.*?)\s` tail of the pattern: capture up to (not
including) the first whitespace character; fail when none exists.  (Every
captured character is non-whitespace, hence in particular not a newline,
so the `.`-cannot-match-newline constraint is automatically satisfied.) -/
def captureTok : List Char → Option (List Char)
  | [] => none
  | c :: rest =>
    if pyIsSpace c then some [] else (captureTok rest).map (fun t => c :: t)

/-- `re.search(r'\s-t\s(.*?)\s', command)` followed by `.group(1)`: try the
pattern at each start position from the left; at a position the literal
part needs a whitespace, `-`, `t`, whitespace, and then `captureTok` for
the captured group. -/
def reSearchDashT : List Char → Option (List Char)
  | [] => none
  | c :: rest =>
    match c :: rest with
    | a :: '-' :: 't' :: b :: tail =>
      if pyIsSpace a && pyIsSpace b then
        match captureTok tail with
        | some tok => some tok
        | none => reSearchDashT rest
      else reSearchDashT rest
    | _ => reSearchDashT rest

/-- Python `x // 1024` as applied to `SEND_SIZE` (floor division; `bool` is
an `int` subtype in Python; a float floor-divides to a float; any other
operand raises `TypeError`, caught as a record failure). -/
def floorDiv1024 : JValue → Option JValue
  | .int n => some (.int (Int.fdiv n 1024))
  | .bool b => some (.int (Int.fdiv (if b then 1 else 0) 1024))
  | .num q => some (.num (mkRat (Int.fdiv q.num (1024 * (q.den : Int))) 1))
  | _ => none

/-- The body run for one `TCP upload` / `TCP download` series (lines
203-216): set `type` from the regex on `COMMAND`, check
`UNITS == "Mbits/s"`, set `bw` from `MEAN_VALUE` and `msize` from
`SEND_SIZE // 1024`.  Any missing key, non-string `COMMAND`, failed regex
match, or unit mismatch raises, i.e. returns `none`. -/
def tcpStep (sv : JValue) (kpi : KpiDict) : Option KpiDict :=
  match sv.getKey? "COMMAND" with
  | some (.str command) =>
    match reSearchDashT command.toList with
    | some tok =>
      let kpi := dictSet kpi "type" (.str (String.mk tok))
      match sv.getKey? "UNITS" with
      | some (.str u) =>
        if u = "Mbits/s" then
          match sv.getKey? "MEAN_VALUE" with
          | some mv =>
            let kpi := dictSet kpi "bw" mv
            match sv.getKey? "SEND_SIZE" with
            | some ss =>
              match floorDiv1024 ss with
              | some ms => some (dictSet kpi "msize" ms)
              | none => none
            | none => none
          | none => none
        else none
      | some _ => none
      | none => none
    | none => none
  | some _ => none
  | none => none

/-- The series loop of `_get_kpis_from_raw_data` (lines 199-216): iterate
the `SERIES_META` entries in insertion order; skip the ICMP ping series and
any series not named `TCP upload` / `TCP download`; run `tcpStep` on each
TCP series, propagating its failure. -/
def processSeries : List (String × JValue) → KpiDict → Option KpiDict
  | [], kpi => some kpi
  | (name, sv) :: rest, kpi =>
    if name = "Ping (ms) ICMP" then processSeries rest kpi
    else if name = "TCP upload" ∨ name = "TCP download" then
      match tcpStep sv kpi with
      | some kpi2 => processSeries rest kpi2
      | none => none
    else processSeries rest kpi

/-- Lines 227-234: default each contextual field that is not already a key
to the literal string `"NaN"` (the additional-information block above them
is `pass`, so nothing ever populates these four fields). -/
def addContextDefaults (kpi : KpiDict) : KpiDict :=
  let kpi := if (kpi.lookup "driver").isSome then kpi
             else dictSet kpi "driver" (.str "NaN")
  let kpi := if (kpi.lookup "format").isSome then kpi
             else dictSet kpi "format" (.str "NaN")
  let kpi := if (kpi.lookup "round").isSome then kpi
             else dictSet kpi "round" (.str "NaN")
  if (kpi.lookup "backend").isSome then kpi
  else dictSet kpi "backend" (.str "NaN")

/-- `_get_kpis_from_raw_data`: look up `metadata` then `SERIES_META` (any
failure, including a non-dict along the path, raises and is caught),
process the series, then default the contextual fields.  The source's
`raw_data == ''` guard also yields the failure result and is subsumed by
the lookup failing on a string. -/
def get_kpis_from_raw_data (raw_data : JValue) : Option KpiDict :=
  match raw_data.getKey? "metadata" with
  | none => none
  | some md =>
    match md.getKey? "SERIES_META" with
    | some (.obj fields) =>
      match processSeries fields [] with
      | some kpi => some (addContextDefaults kpi)
      | none => none
    | some _ => none
    | none => none

/-- `calculate_performance_kpis` (lines 263-271): walk the raw-data list in
order, appending each successful extraction to the KPI list; on the first
failing record return status `1` immediately, keeping the appends made so
far.  Returns (status, final KPI list). -/
def calculate_performance_kpis : List JValue → List KpiDict → Nat × List KpiDict
  | [], kpis => (0, kpis)
  | raw :: rest, kpis =>
    match get_kpis_from_raw_data raw with
    | some kpi => calculate_performance_kpis rest (kpis ++ [kpi])
    | none => (1, kpis)

/-! ## Loader and shared class state -/

/-- The class-level state of `FlentTestReporter` (lines 43-53).  In the
source `raw_data_list` and `perf_kpi_list` are mutable class attributes:
every instance's `self.raw_data_list.append(...)` mutates the same list
object, so the state belongs to the process, not to an instance. -/
structure ClassState where
  raw_data_list : List JValue
  perf_kpi_list : List KpiDict

/-- Instantiating `FlentTestReporter()` — the class defines no `__init__`,
so a new instance shares the existing class-level lists unchanged. -/
def FlentTestReporter.new (st : ClassState) : ClassState := st

/-- The file loop of `load_raw_data_from_flent_logs` (lines 144-163): each
directory entry is represented by its parse outcome (`none` when
`_get_raw_data_from_flent_log` failed to parse the file's JSON); a
successful parse is appended to the accumulator, a failure is skipped. -/
def loadLoop : List (Option JValue) → List JValue → List JValue
  | [], acc => acc
  | f :: rest, acc =>
    match f with
    | some raw => loadLoop rest (acc ++ [raw])
    | none => loadLoop rest acc

/-- `load_raw_data_from_flent_logs` with `result_path` supplied: appends
every parsed file to the shared raw-data list and always returns status
`0` (line 165). -/
def load_raw_data_from_flent_logs (files : List (Option JValue))
    (st : ClassState) : Nat × ClassState :=
  (0, { st with raw_data_list := loadLoop files st.raw_data_list })

/-- `calculate_performance_kpis` as the method acting on the shared class
state (reads `self.raw_data_list`, appends to `self.perf_kpi_list`). -/
def calculate_performance_kpis_method (st : ClassState) : Nat × ClassState :=
  let res := calculate_performance_kpis st.raw_data_list st.perf_kpi_list
  (res.1, { st with perf_kpi_list := res.2 })

/-- The load-then-extract prefix of one CLI run, as it updates the shared
class state. -/
def pipeline_run (files : List (Option JValue)) (st : ClassState) : ClassState :=
  (calculate_performance_kpis_method (load_raw_data_from_flent_logs files st).2).2

/-! ## Report table: build, sort, round, serialize -/

/-- One row of the report DataFrame, cells in the fixed column order of
`_create_report_dataframe` (the column rename is header-only). -/
structure Row where
  backend : JValue
  driver : JValue
  format : JValue
  type : JValue
  msize : JValue
  round : JValue
  bw : JValue

/-- Lexicographic `≤` on char lists by code point — Python string
comparison. -/
def listCharLe : List Char → List Char → Bool
  | [], _ => true
  | _ :: _, [] => false
  | a :: as, b :: bs =>
    if a.toNat < b.toNat then true
    else if a.toNat = b.toNat then listCharLe as bs
    else false

/-- Python `s <= t` on strings. -/
def strLe (a b : String) : Bool := listCharLe a.toList b.toList

/-- The numeric value of a cell, when it is numeric (Python treats `bool`
as the ints 0 / 1). -/
def JValue.numVal : JValue → Option ℚ
  | .bool b => some (if b then 1 else 0)
  | .int n => some ((n : ℚ))
  | .num q => some q
  | _ => none

/-- A type tag used to totalize cross-type cell comparison (pandas raises
`TypeError` there; no extractor-produced table has a mixed-type sort-key
column, so the tag order is never exercised on real tables). -/
def JValue.tag : JValue → Nat
  | .null => 0
  | .nan => 1
  | .bool _ => 2
  | .int _ => 2
  | .num _ => 2
  | .str _ => 3
  | .obj _ => 4

/-- `x ≤ y` on exact rationals by cross-multiplication (denominators are
positive), kept kernel-computable. -/
def qleb (x y : ℚ) : Bool := decide (x.num * (y.den : Int) ≤ y.num * (x.den : Int))

/-- Cell `≤`: numeric against numeric compares numerically, string against
string lexicographically; anything else falls back to the type tag. -/
def JValue.leb (a b : JValue) : Bool :=
  match a.numVal, b.numVal with
  | some x, some y => qleb x y
  | _, _ =>
    match a, b with
    | .str s, .str t => strLe s t
    | _, _ => decide (a.tag ≤ b.tag)

/-- The six-column sort key of `_format_report_dataframe` (line 320):
`Backend, Driver, Format, Type, MSize(Kbits), Round` — bandwidth is not
part of the key. -/
def rowKey (r : Row) : List JValue := [r.backend, r.driver, r.format, r.type, r.msize, r.round]

/-- Lexicographic `≤` over equal-length key lists, built from cell `≤`. -/
def listLexLe : List JValue → List JValue → Bool
  | [], _ => true
  | _ :: _, [] => false
  | a :: as, b :: bs =>
    if a.leb b then (if b.leb a then listLexLe as bs else true) else false

/-- Row comparison used by the sort: lexicographic on the six-key tuple. -/
def rowLe (a b : Row) : Bool := listLexLe (rowKey a) (rowKey b)

/-- Pointwise equivalence of two key lists under the cell order (cells
comparing `≤` both ways). -/
def listEqv : List JValue → List JValue → Bool
  | [], [] => true
  | a :: as, b :: bs => a.leb b && b.leb a && listEqv as bs
  | _, _ => false

/-- Two rows tie in the sort exactly when their six-key tuples are
equivalent cell by cell. -/
def keysEqv (a b : Row) : Bool := listEqv (rowKey a) (rowKey b)

/-- `rowLe` as a relation, for the sort. -/
def rowLeP (a b : Row) : Prop := rowLe a b = true

/-- Strict row order: `a` before `b` and not conversely. -/
def rowLtP (a b : Row) : Prop := rowLeP a b ∧ ¬ rowLeP b a

instance : DecidableRel rowLeP := fun a b => Bool.decEq (rowLe a b) true

/-- `df.sort_values(by=[six keys])`: pandas' multi-column sort is a stable
lexicographic sort (numpy `lexsort`); insertion sort is stable, so it
computes the same row order. -/
def sortReportRows (rows : List Row) : List Row :=
  List.insertionSort rowLeP rows

/-- Round `q * 10000` half to even (the rounding of numpy /
`DataFrame.round`), computed on numerator and denominator: `f` is the
floor of `q.num * 10000 / q.den` and `rem / d` the fractional part. -/
def roundHalfEven4 (q : ℚ) : Int :=
  let n : Int := q.num * 10000
  let d : Int := (q.den : Int)
  let f : Int := Int.fdiv n d
  let rem : Int := n - f * d
  if 2 * rem < d then f
  else if d < 2 * rem then f + 1
  else if f % 2 = 0 then f else f + 1

/-- `round(x, 4)` on an exact rational. -/
def round4 (q : ℚ) : ℚ := mkRat (roundHalfEven4 q) 10000

/-- `df.round(4)` on one cell: floats are rounded to 4 decimal places,
integer and non-numeric cells are unchanged. -/
def jround4 : JValue → JValue
  | .num q => .num (round4 q)
  | v => v

/-- `df.round(4)` on one row (it applies to every numeric column). -/
def roundRow (r : Row) : Row :=
  { backend := jround4 r.backend, driver := jround4 r.driver,
    format := jround4 r.format, type := jround4 r.type,
    msize := jround4 r.msize, round := jround4 r.round,
    bw := jround4 r.bw }

/-- One cell of `pd.DataFrame(kpis, columns=[...])`: the dict's value for
that column, or the float-NaN filler when the key is absent. -/
def dictCell (d : KpiDict) (k : String) : JValue := (d.lookup k).getD .nan

/-- `_create_report_dataframe` (lines 287-303): one row per KPI dict with
the fixed seven-column schema; the subsequent `rename` only changes the
displayed header labels. -/
def _create_report_dataframe (kpis : List KpiDict) : List Row :=
  kpis.map (fun d =>
    { backend := dictCell d "backend", driver := dictCell d "driver",
      format := dictCell d "format", type := dictCell d "type",
      msize := dictCell d "msize", round := dictCell d "round",
      bw := dictCell d "bw" })

/-- `_format_report_dataframe` (lines 320-326): sort by the six-key tuple,
renumber the index from zero (visible only at serialization), round to 4
decimal places. -/
def _format_report_dataframe (rows : List Row) : List Row :=
  (sortReportRows rows).map roundRow

/-- `generate_report_dataframe` (lines 330-349). -/
def generate_report_dataframe (kpis : List KpiDict) : List Row :=
  _format_report_dataframe (_create_report_dataframe kpis)

/-- The header line of `df.to_csv()`: empty index label then the renamed
columns. -/
def csvHeader : String := ",Backend,Driver,Format,Type,MSize(Kbits),Round,BW(Mbits/s)"

/-- Left-pad a digit string with zeros to width `k`. -/
def padZeros (k : Nat) (s : String) : String :=
  String.mk (List.replicate (k - s.length) '0') ++ s

/-- Decimal rendering of a float cell as pandas serializes it: shortest
fractional expansion (`q` is scaled by the least power of ten its reduced
denominator divides), with integral floats printed with a trailing `.0`. -/
def renderNum (q : ℚ) : String :=
  match (List.range 17).find? (fun k => 10 ^ (k + 1) % q.den = 0) with
  | none => toString q.num ++ "/" ++ toString q.den
  | some k0 =>
    let k := k0 + 1
    let m : Int := q.num * ((10 ^ k / q.den : Nat) : Int)
    let a := m.natAbs
    (if m < 0 then "-" else "") ++ toString (a / 10 ^ k) ++ "." ++
      padZeros k (toString (a % 10 ^ k))

/-- One CSV cell. -/
def renderCell : JValue → String
  | .str s => s
  | .int n => toString n
  | .num q => renderNum q
  | .bool b => if b then "True" else "False"
  | .null => ""
  | .nan => ""
  | .obj _ => ""

/-- `report_dataframe_to_csv` / `df.to_csv()` (lines 374-379): header line,
then one line per row with the post-sort 0-based index as leading column. -/
def report_dataframe_to_csv (rows : List Row) : String :=
  csvHeader ++ "\n" ++
  String.join ((rows.enum).map (fun p =>
    toString p.1 ++ "," ++
    String.intercalate "," [renderCell p.2.backend, renderCell p.2.driver,
      renderCell p.2.format, renderCell p.2.type, renderCell p.2.msize,
      renderCell p.2.round, renderCell p.2.bw] ++ "\n"))

/-- `generate_flent_test_report` (lines 389-413) acting on the shared class
state: load (always succeeds once the path is supplied), calculate KPIs
(abort with exit 1 on failure, producing no CSV), then build, format and
serialize the report.  The first component is (exit code, CSV content). -/
def generate_flent_test_report (files : List (Option JValue))
    (st : ClassState) : (Nat × Option String) × ClassState :=
  let st1 := (load_raw_data_from_flent_logs files st).2
  let res := calculate_performance_kpis_method st1
  if res.1 ≠ 0 then ((1, none), res.2)
  else
    ((0, some (report_dataframe_to_csv (generate_report_dataframe res.2.perf_kpi_list))),
     res.2)

/-- A whole-process run: the class-level lists start empty in a fresh
interpreter. -/
def generate_flent_test_report_fresh (files : List (Option JValue)) :
    Nat × Option String :=
  (generate_flent_test_report files ⟨[], []⟩).1

end Flent

namespace Flent

/-! ## Concrete records used by the witnesses and counterexamples -/

/-- The spec's §8 sample series: `MEAN_VALUE` 941.23456, `SEND_SIZE`
131072 bytes. -/
def sampleSeries : JValue :=
  .obj [("COMMAND", .str "flent -t tcp_up -l 60 host"),
        ("UNITS", .str "Mbits/s"),
        ("MEAN_VALUE", .num (mkRat 94123456 100000)),
        ("SEND_SIZE", .int 131072)]

/-- The spec's §8 sample record, one `TCP upload` series. -/
def sampleRaw : JValue :=
  .obj [("metadata", .obj [("SERIES_META", .obj [("TCP upload", sampleSeries)])])]

/-- The KPI dict the extractor produces for `sampleRaw`. -/
def sampleKpi : KpiDict :=
  [("type", .str "tcp_up"), ("bw", .num (mkRat 94123456 100000)),
   ("msize", .int 128), ("driver", .str "NaN"), ("format", .str "NaN"),
   ("round", .str "NaN"), ("backend", .str "NaN")]

/-- A TCP series whose `UNITS` is not `"Mbits/s"`. -/
def badUnitsSeries : JValue :=
  .obj [("COMMAND", .str "flent -t tcp_down -l 60 host"),
        ("UNITS", .str "Gbits/s"),
        ("MEAN_VALUE", .num (mkRat 1 1)),
        ("SEND_SIZE", .int 2048)]

/-- A record whose only TCP series violates the bandwidth-unit contract. -/
def badUnitsRaw : JValue :=
  .obj [("metadata", .obj [("SERIES_META", .obj [("TCP download", badUnitsSeries)])])]

/-- A record with an empty `SERIES_META` (no TCP series at all). -/
def emptyMetaRaw : JValue :=
  .obj [("metadata", .obj [("SERIES_META", .obj [])])]

/-- What the extractor returns for `emptyMetaRaw`: only the four defaulted
contextual keys. -/
def emptyMetaKpi : KpiDict :=
  [("driver", .str "NaN"), ("format", .str "NaN"),
   ("round", .str "NaN"), ("backend", .str "NaN")]

/-- A record with no `metadata` key: extraction fails on it. -/
def badRaw : JValue := .obj []

/-- An upload series for the dual-series record. -/
def dualSeriesUp : JValue :=
  .obj [("COMMAND", .str "flent -t tcp_up -l 60 host"),
        ("UNITS", .str "Mbits/s"),
        ("MEAN_VALUE", .num (mkRat 9000 10)),
        ("SEND_SIZE", .int 131072)]

/-- A download series for the dual-series record. -/
def dualSeriesDown : JValue :=
  .obj [("COMMAND", .str "flent -t tcp_down -l 60 host"),
        ("UNITS", .str "Mbits/s"),
        ("MEAN_VALUE", .num (mkRat 8000 10)),
        ("SEND_SIZE", .int 65536)]

/-- A record holding both a `TCP upload` and a `TCP download` series, in
that insertion order. -/
def dualRaw : JValue :=
  .obj [("metadata",
         .obj [("SERIES_META",
                .obj [("TCP upload", dualSeriesUp),
                      ("TCP download", dualSeriesDown)])])]

/-- A report row with the extractor's key shape and a given bandwidth. -/
def mkSampleRow (t : String) (q : ℚ) : Row :=
  { backend := .str "NaN", driver := .str "NaN", format := .str "NaN",
    type := .str t, msize := .int 128, round := .str "NaN", bw := .num q }

/-- First of two rows that tie on all six sort keys. -/
def cexRow1 : Row := mkSampleRow "tcp_up" (mkRat 1 1)

/-- Second of two rows that tie on all six sort keys but differ in
bandwidth. -/
def cexRow2 : Row := mkSampleRow "tcp_up" (mkRat 2 1)

/-- A row whose `type` key differs from `cexRow1`'s. -/
def wRowA : Row := mkSampleRow "tcp_down" (mkRat 3 1)

/-- A row whose bandwidth needs rounding: 123.456789. -/
def c6Row : Row := mkSampleRow "tcp_up" (mkRat 123456789 1000000)

/-! ## Order lemmas for the sort comparator -/

lemma qleb_iff (x y : ℚ) : qleb x y = true ↔ x ≤ y := by
  simp [qleb, Rat.le_def]

lemma qleb_total (x y : ℚ) : qleb x y = true ∨ qleb y x = true := by
  rcases le_total x y with h | h
  · exact Or.inl ((qleb_iff x y).mpr h)
  · exact Or.inr ((qleb_iff y x).mpr h)

lemma qleb_trans {x y z : ℚ} (h1 : qleb x y = true) (h2 : qleb y z = true) :
    qleb x z = true :=
  (qleb_iff x z).mpr (le_trans ((qleb_iff x y).mp h1) ((qleb_iff y z).mp h2))

lemma listCharLe_total (a : List Char) :
    ∀ b, listCharLe a b = true ∨ listCharLe b a = true := by
  induction a with
  | nil => intro b; exact Or.inl rfl
  | cons x xs ih =>
    intro b
    cases b with
    | nil => exact Or.inr rfl
    | cons y ys =>
      rcases Nat.lt_trichotomy x.toNat y.toNat with h | h | h
      · exact Or.inl (by simp [listCharLe, h])
      · rcases ih ys with h2 | h2
        · exact Or.inl (by simp [listCharLe, h, h2])
        · exact Or.inr (by simp [listCharLe, h.symm, h2])
      · exact Or.inr (by simp [listCharLe, h])

lemma listCharLe_trans (a : List Char) :
    ∀ b c, listCharLe a b = true → listCharLe b c = true →
      listCharLe a c = true := by
  induction a with
  | nil => intro b c _ _; rfl
  | cons x xs ih =>
    intro b c h1 h2
    cases b with
    | nil => simp [listCharLe] at h1
    | cons y ys =>
      cases c with
      | nil => simp [listCharLe] at h2
      | cons z zs =>
        by_cases hxy : x.toNat < y.toNat
        · by_cases hyz : y.toNat < z.toNat
          · simp [listCharLe, Nat.lt_trans hxy hyz]
          · by_cases heq : y.toNat = z.toNat
            · simp [listCharLe, heq ▸ hxy]
            · simp [listCharLe, hyz, heq] at h2
        · by_cases heq : x.toNat = y.toNat
          · simp [listCharLe, hxy, heq] at h1
            by_cases hyz : y.toNat < z.toNat
            · have hlt : x.toNat < z.toNat := heq ▸ hyz
              simp [listCharLe, hlt]
            · by_cases heq2 : y.toNat = z.toNat
              · simp [listCharLe, hyz, heq2] at h2
                have hxz : x.toNat = z.toNat := heq.trans heq2
                simp [listCharLe, hxz, ih ys zs h1 h2]
              · simp [listCharLe, hyz, heq2] at h2
          · simp [listCharLe, hxy, heq] at h1

lemma strLe_total (a b : String) : strLe a b = true ∨ strLe b a = true :=
  listCharLe_total a.toList b.toList

lemma strLe_trans {a b c : String} (h1 : strLe a b = true)
    (h2 : strLe b c = true) : strLe a c = true :=
  listCharLe_trans a.toList b.toList c.toList h1 h2

lemma leb_total (a b : JValue) : a.leb b = true ∨ b.leb a = true := by
  cases a <;> cases b <;>
    simp [JValue.leb, JValue.numVal, JValue.tag] <;>
    first
      | exact qleb_total _ _
      | exact strLe_total _ _

lemma leb_trans {a b c : JValue} (h1 : a.leb b = true) (h2 : b.leb c = true) :
    a.leb c = true := by
  cases a <;> cases b <;> cases c <;>
    simp_all [JValue.leb, JValue.numVal, JValue.tag] <;>
    first
      | exact qleb_trans h1 h2
      | exact strLe_trans h1 h2

lemma listLexLe_total (a : List JValue) :
    ∀ b, listLexLe a b = true ∨ listLexLe b a = true := by
  induction a with
  | nil => intro b; exact Or.inl rfl
  | cons x xs ih =>
    intro b
    cases b with
    | nil => exact Or.inr rfl
    | cons y ys =>
      cases hxy : x.leb y <;> cases hyx : y.leb x
      · rcases leb_total x y with h | h <;> simp_all
      · exact Or.inr (by simp [listLexLe, hyx, hxy])
      · exact Or.inl (by simp [listLexLe, hxy, hyx])
      · rcases ih ys with h | h
        · exact Or.inl (by simp [listLexLe, hxy, hyx, h])
        · exact Or.inr (by simp [listLexLe, hxy, hyx, h])

lemma listLexLe_trans (a : List JValue) :
    ∀ b c, listLexLe a b = true → listLexLe b c = true →
      listLexLe a c = true := by
  induction a with
  | nil => intro b c _ _; rfl
  | cons x xs ih =>
    intro b c h1 h2
    cases b with
    | nil => simp [listLexLe] at h1
    | cons y ys =>
      cases c with
      | nil => simp [listLexLe] at h2
      | cons z zs =>
        cases hxy : x.leb y
        · simp [listLexLe, hxy] at h1
        · cases hyz : y.leb z
          · simp [listLexLe, hyz] at h2
          · have hxz : x.leb z = true := leb_trans hxy hyz
            cases hzx : z.leb x
            · simp [listLexLe, hxz, hzx]
            · have hyx : y.leb x = true := leb_trans hyz hzx
              have hzy : z.leb y = true := leb_trans hzx hxy
              simp [listLexLe, hxy, hyx] at h1
              simp [listLexLe, hyz, hzy] at h2
              simp [listLexLe, hxz, hzx, ih ys zs h1 h2]

lemma listLexLe_both_eqv (a : List JValue) :
    ∀ b, listLexLe a b = true → listLexLe b a = true → listEqv a b = true := by
  induction a with
  | nil =>
    intro b h1 h2
    cases b with
    | nil => rfl
    | cons y ys => simp [listLexLe] at h2
  | cons x xs ih =>
    intro b h1 h2
    cases b with
    | nil => simp [listLexLe] at h1
    | cons y ys =>
      cases hxy : x.leb y
      · simp [listLexLe, hxy] at h1
      · cases hyx : y.leb x
        · simp [listLexLe, hyx] at h2
        · simp [listLexLe, hxy, hyx] at h1 h2
          simp [listEqv, hxy, hyx, ih ys h1 h2]

lemma listEqv_comm (a : List JValue) : ∀ b, listEqv a b = listEqv b a := by
  induction a with
  | nil => intro b; cases b <;> rfl
  | cons x xs ih =>
    intro b
    cases b with
    | nil => rfl
    | cons y ys =>
      simp [listEqv, ih ys, Bool.and_comm, Bool.and_assoc, Bool.and_left_comm]

lemma rowLe_total (a b : Row) : rowLe a b = true ∨ rowLe b a = true :=
  listLexLe_total (rowKey a) (rowKey b)

lemma rowLe_trans {a b c : Row} (h1 : rowLe a b = true) (h2 : rowLe b c = true) :
    rowLe a c = true :=
  listLexLe_trans (rowKey a) (rowKey b) (rowKey c) h1 h2

lemma rowLe_both_keysEqv {a b : Row} (h1 : rowLe a b = true)
    (h2 : rowLe b a = true) : keysEqv a b = true :=
  listLexLe_both_eqv (rowKey a) (rowKey b) h1 h2

lemma keysEqv_comm (a b : Row) : keysEqv a b = keysEqv b a :=
  listEqv_comm (rowKey a) (rowKey b)

lemma sortReportRows_sorted (l : List Row) :
    List.Sorted rowLeP (sortReportRows l) := by
  haveI : IsTotal Row rowLeP := ⟨fun a b => rowLe_total a b⟩
  haveI : IsTrans Row rowLeP := ⟨fun a b c h1 h2 => rowLe_trans h1 h2⟩
  exact List.sorted_insertionSort rowLeP l

lemma sortReportRows_perm (l : List Row) : (sortReportRows l).Perm l :=
  List.perm_insertionSort rowLeP l

/-! ## Extraction lemmas -/

lemma processSeries_skip (l rest : List (String × JValue)) :
    ∀ kpi, (∀ p ∈ l, ¬(p.1 = "TCP upload" ∨ p.1 = "TCP download")) →
      processSeries (l ++ rest) kpi = processSeries rest kpi := by
  induction l with
  | nil => intro kpi _; rfl
  | cons p l ih =>
    intro kpi h
    obtain ⟨hp, hl⟩ := List.forall_mem_cons.mp h
    obtain ⟨p1, p2⟩ := p
    by_cases hping : p1 = "Ping (ms) ICMP" <;>
      simp [processSeries, hping, hp, ih kpi hl]

lemma tcpStep_some (sv : JValue) {command : String} {tok : List Char}
    {mv ss msv : JValue} (kpi : KpiDict)
    (hcmd : sv.getKey? "COMMAND" = some (.str command))
    (htok : reSearchDashT command.toList = some tok)
    (hunits : sv.getKey? "UNITS" = some (.str "Mbits/s"))
    (hmv : sv.getKey? "MEAN_VALUE" = some mv)
    (hss : sv.getKey? "SEND_SIZE" = some ss)
    (hfd : floorDiv1024 ss = some msv) :
    tcpStep sv kpi =
      some (dictSet (dictSet (dictSet kpi "type" (.str (String.mk tok)))
        "bw" mv) "msize" msv) := by
  have htok2 : reSearchDashT command.data = some tok := htok
  simp [tcpStep, hcmd, htok2, hunits, hmv, hss, hfd]

lemma tcpStep_shape {sv : JValue} {kpi k : KpiDict} (h : tcpStep sv kpi = some k) :
    ∃ tv bv mv, k = dictSet (dictSet (dictSet kpi "type" tv) "bw" bv) "msize" mv := by
  simp only [tcpStep] at h
  repeat' split at h
  all_goals simp_all
  exact ⟨_, _, _, h.symm⟩

lemma tcpStep_bad_units {sv : JValue} {u : String} (kpi : KpiDict)
    (hu : sv.getKey? "UNITS" = some (.str u)) (hbad : u ≠ "Mbits/s") :
    tcpStep sv kpi = none := by
  rcases hc : sv.getKey? "COMMAND" with _ | cv
  · simp [tcpStep, hc]
  · cases cv
    case str s =>
      rcases ht : reSearchDashT s.data with _ | tok
      · simp [tcpStep, hc, ht]
      · simp [tcpStep, hc, ht, hu, hbad]
    all_goals simp [tcpStep, hc]

lemma processSeries_none_of_bad {nm : String} {sv : JValue} {u : String}
    (hnm : nm = "TCP upload" ∨ nm = "TCP download")
    (hu : sv.getKey? "UNITS" = some (.str u)) (hbad : u ≠ "Mbits/s") :
    ∀ (fields : List (String × JValue)), (nm, sv) ∈ fields →
      ∀ kpi, processSeries fields kpi = none := by
  intro fields
  induction fields with
  | nil => intro hmem kpi; cases hmem
  | cons p rest ih =>
    intro hmem kpi
    rcases List.mem_cons.mp hmem with heq | hmem2
    · have hping : ¬(nm = "Ping (ms) ICMP") := by
        rcases hnm with h | h <;> subst h <;> decide
      rw [show p = (nm, sv) from heq.symm]
      simp [processSeries, hping, hnm, tcpStep_bad_units kpi hu hbad]
    · obtain ⟨p1, p2⟩ := p
      by_cases hping : p1 = "Ping (ms) ICMP"
      · simp [processSeries, hping, ih hmem2]
      · by_cases htcp : p1 = "TCP upload" ∨ p1 = "TCP download"
        · rcases hstep : tcpStep p2 kpi with _ | kpi2
          · simp [processSeries, hping, htcp, hstep]
          · simp [processSeries, hping, htcp, hstep, ih hmem2]
        · simp [processSeries, hping, htcp, ih hmem2]

lemma processSeries_shape :
    ∀ (fields : List (String × JValue)) (kpi k : KpiDict),
      processSeries fields kpi = some k →
      (kpi = [] ∨ ∃ t b m, kpi = [("type", t), ("bw", b), ("msize", m)]) →
      ((k = kpi ∧ ∀ p ∈ fields, ¬(p.1 = "TCP upload" ∨ p.1 = "TCP download")) ∨
        ((∃ t b m, k = [("type", t), ("bw", b), ("msize", m)]) ∧
          ∃ p ∈ fields, p.1 = "TCP upload" ∨ p.1 = "TCP download")) := by
  intro fields
  induction fields with
  | nil =>
    intro kpi k h _
    refine Or.inl ⟨?_, ?_⟩
    · cases h; rfl
    · intro p hp; cases hp
  | cons p rest ih =>
    intro kpi k h hkpi
    obtain ⟨p1, p2⟩ := p
    by_cases hping : p1 = "Ping (ms) ICMP"
    · simp only [processSeries, if_pos hping] at h
      rcases ih kpi k h hkpi with ⟨hk, hno⟩ | ⟨hsh, q, hq, hqtcp⟩
      · refine Or.inl ⟨hk, ?_⟩
        refine List.forall_mem_cons.mpr ⟨?_, hno⟩
        subst hping; simp
      · exact Or.inr ⟨hsh, q, List.mem_cons_of_mem _ hq, hqtcp⟩
    · by_cases htcp : p1 = "TCP upload" ∨ p1 = "TCP download"
      · rcases hstep : tcpStep p2 kpi with _ | kpi2
        · simp [processSeries, hping, htcp, hstep] at h
        · simp only [processSeries, if_neg hping, if_pos htcp, hstep] at h
          obtain ⟨tv, bv, mv, hk2⟩ := tcpStep_shape hstep
          have hshape2 : ∃ t b m, kpi2 = [("type", t), ("bw", b), ("msize", m)] := by
            rcases hkpi with h0 | ⟨t, b, m, h3⟩
            · subst h0; exact ⟨tv, bv, mv, by rw [hk2]; rfl⟩
            · subst h3; exact ⟨tv, bv, mv, by rw [hk2]; rfl⟩
          rcases ih kpi2 k h (Or.inr hshape2) with ⟨hk, _⟩ | ⟨hsh, _⟩
          · obtain ⟨t, b, m, he⟩ := hshape2
            exact Or.inr ⟨⟨t, b, m, hk.trans he⟩,
              (p1, p2), List.mem_cons_self _ _, htcp⟩
          · exact Or.inr ⟨hsh, (p1, p2), List.mem_cons_self _ _, htcp⟩
      · simp only [processSeries, if_neg hping, if_neg htcp] at h
        rcases ih kpi k h hkpi with ⟨hk, hno⟩ | ⟨hsh, q, hq, hqtcp⟩
        · exact Or.inl ⟨hk, List.forall_mem_cons.mpr ⟨htcp, hno⟩⟩
        · exact Or.inr ⟨hsh, q, List.mem_cons_of_mem _ hq, hqtcp⟩

/-! ## Loader and batch lemmas -/

lemma loadLoop_eq (files : List (Option JValue)) :
    ∀ acc, loadLoop files acc = acc ++ files.filterMap id := by
  induction files with
  | nil => intro acc; simp [loadLoop]
  | cons f rest ih =>
    intro acc
    cases f with
    | none => simp [loadLoop, ih, List.filterMap_cons]
    | some v => simp [loadLoop, ih, List.filterMap_cons]

lemma calc_append (pre : List JValue) :
    ∀ acc, (∀ r ∈ pre, ∃ k, get_kpis_from_raw_data r = some k) →
      ∀ rest, calculate_performance_kpis (pre ++ rest) acc =
        calculate_performance_kpis rest
          (acc ++ pre.filterMap get_kpis_from_raw_data) := by
  induction pre with
  | nil => intro acc _ rest; simp
  | cons r pre ih =>
    intro acc hall rest
    obtain ⟨⟨k, hk⟩, hall2⟩ := List.forall_mem_cons.mp hall
    simp [calculate_performance_kpis, hk, ih (acc ++ [k]) hall2 rest,
      List.filterMap_cons, List.append_assoc]

lemma calc_success (l : List JValue) (acc : List KpiDict)
    (hall : ∀ r ∈ l, ∃ k, get_kpis_from_raw_data r = some k) :
    calculate_performance_kpis l acc =
      (0, acc ++ l.filterMap get_kpis_from_raw_data) := by
  simpa using calc_append l acc hall []

lemma processSeries_noTCP (l : List (String × JValue)) (kpi : KpiDict)
    (h : ∀ p ∈ l, ¬(p.1 = "TCP upload" ∨ p.1 = "TCP download")) :
    processSeries l kpi = some kpi := by
  have := processSeries_skip l [] kpi h
  simpa using this

/-! ## Claim C1 -/

/-- C1: for every raw record whose `SERIES_META` contains exactly one
series named `TCP upload` or `TCP download`, that series satisfying the
input contract (`COMMAND` a string matched by the `-t` pattern, `UNITS`
exactly `"Mbits/s"`, `MEAN_VALUE` present, `SEND_SIZE` an integer), the
extractor succeeds and returns a KPI record whose `type` is the token
following `-t`, whose `bw` is `MEAN_VALUE`, and whose `msize` is
`SEND_SIZE // 1024`. -/
theorem C1_single_tcp_series_extract
    (raw md sv : JValue) (fields l1 l2 : List (String × JValue)) (nm : String)
    (command : String) (tok : List Char) (mv : JValue) (sz : Int)
    (h1 : raw.getKey? "metadata" = some md)
    (h2 : md.getKey? "SERIES_META" = some (.obj fields))
    (hfields : fields = l1 ++ (nm, sv) :: l2)
    (hnm : nm = "TCP upload" ∨ nm = "TCP download")
    (honly1 : ∀ p ∈ l1, ¬(p.1 = "TCP upload" ∨ p.1 = "TCP download"))
    (honly2 : ∀ p ∈ l2, ¬(p.1 = "TCP upload" ∨ p.1 = "TCP download"))
    (hcmd : sv.getKey? "COMMAND" = some (.str command))
    (htok : reSearchDashT command.toList = some tok)
    (hunits : sv.getKey? "UNITS" = some (.str "Mbits/s"))
    (hmv : sv.getKey? "MEAN_VALUE" = some mv)
    (hss : sv.getKey? "SEND_SIZE" = some (.int sz)) :
    ∃ kpi, get_kpis_from_raw_data raw = some kpi ∧
      kpi.lookup "type" = some (.str (String.mk tok)) ∧
      kpi.lookup "bw" = some mv ∧
      kpi.lookup "msize" = some (.int (Int.fdiv sz 1024)) := by
  have hstep := tcpStep_some sv [] hcmd htok hunits hmv hss rfl
  have hping : ¬(nm = "Ping (ms) ICMP") := by
    rcases hnm with h | h <;> subst h <;> simp
  have hproc : processSeries fields [] =
      some [("type", .str (String.mk tok)), ("bw", mv),
        ("msize", .int (Int.fdiv sz 1024))] := by
    subst hfields
    rw [processSeries_skip l1 ((nm, sv) :: l2) [] honly1]
    have e1 : processSeries ((nm, sv) :: l2) [] =
        processSeries l2 [("type", .str (String.mk tok)), ("bw", mv),
          ("msize", .int (Int.fdiv sz 1024))] := by
      simp only [processSeries, if_neg hping, if_pos hnm, hstep]
      rfl
    rw [e1, processSeries_noTCP l2 _ honly2]
  have hget : get_kpis_from_raw_data raw =
      some (addContextDefaults [("type", .str (String.mk tok)), ("bw", mv),
        ("msize", .int (Int.fdiv sz 1024))]) := by
    simp only [get_kpis_from_raw_data, h1, h2, hproc]
  exact ⟨_, hget, rfl, rfl, rfl⟩

/-- C1 witness: the §8 sample record evaluates as the theorem states. -/
theorem C1_single_tcp_series_extract_witness :
    ∃ kpi, get_kpis_from_raw_data sampleRaw = some kpi ∧
      kpi.lookup "type" = some (.str "tcp_up") ∧
      kpi.lookup "bw" = some (.num (mkRat 94123456 100000)) ∧
      kpi.lookup "msize" = some (.int (Int.fdiv 131072 1024)) :=
  C1_single_tcp_series_extract sampleRaw _ sampleSeries _ [] [] "TCP upload"
    "flent -t tcp_up -l 60 host" "tcp_up".toList (.num (mkRat 94123456 100000))
    131072 rfl rfl rfl (Or.inl rfl)
    (by intro p hp; simp at hp) (by intro p hp; simp at hp)
    rfl rfl rfl rfl rfl

/-! ## Claim C3 (corrected) -/

/-- C3 counterexample: a record whose `SERIES_META` has no TCP series
extracts successfully, yet its KPI record has only the four contextual
keys — `type`, `bw` and `msize` are absent, contradicting the claim that
every successful extraction yields exactly the seven keys. -/
theorem C3_empty_series_meta_counterexample :
    get_kpis_from_raw_data emptyMetaRaw = some emptyMetaKpi ∧
    emptyMetaKpi.map Prod.fst = ["driver", "format", "round", "backend"] ∧
    emptyMetaKpi.lookup "type" = none ∧
    emptyMetaKpi.lookup "bw" = none ∧
    emptyMetaKpi.lookup "msize" = none :=
  ⟨rfl, rfl, rfl, rfl, rfl⟩

/-- C3 (amended): for every raw record whose `SERIES_META` contains at
least one `TCP upload` / `TCP download` series and on which extraction
succeeds, the KPI record has exactly the seven keys `type, bw, msize,
driver, format, round, backend` (in insertion order), and the four
contextual fields all equal the literal string `"NaN"`. -/
theorem C3_tcp_record_keys_and_nan_defaults
    (raw md : JValue) (fields : List (String × JValue)) (k : KpiDict)
    (h1 : raw.getKey? "metadata" = some md)
    (h2 : md.getKey? "SERIES_META" = some (.obj fields))
    (hk : get_kpis_from_raw_data raw = some k)
    (htcp : ∃ p ∈ fields, p.1 = "TCP upload" ∨ p.1 = "TCP download") :
    k.map Prod.fst = ["type", "bw", "msize", "driver", "format", "round", "backend"] ∧
    k.lookup "driver" = some (.str "NaN") ∧
    k.lookup "format" = some (.str "NaN") ∧
    k.lookup "round" = some (.str "NaN") ∧
    k.lookup "backend" = some (.str "NaN") := by
  simp only [get_kpis_from_raw_data, h1, h2] at hk
  rcases hproc : processSeries fields [] with _ | kpi0
  · rw [hproc] at hk; simp at hk
  · rw [hproc] at hk
    have hk2 : addContextDefaults kpi0 = k := Option.some.inj hk
    rcases processSeries_shape fields [] kpi0 hproc (Or.inl rfl) with
      ⟨_, hno⟩ | ⟨⟨t, b, m, hsh⟩, _⟩
    · obtain ⟨p, hp, hptcp⟩ := htcp
      exact absurd hptcp (hno p hp)
    · subst hsh
      rw [← hk2]
      exact ⟨rfl, rfl, rfl, rfl, rfl⟩

/-- C3 witness: the sample record has a TCP series; its KPI record shows
the seven keys and the four `"NaN"` contextual fields. -/
theorem C3_tcp_record_keys_and_nan_defaults_witness :
    sampleKpi.map Prod.fst =
      ["type", "bw", "msize", "driver", "format", "round", "backend"] ∧
    sampleKpi.lookup "driver" = some (.str "NaN") ∧
    sampleKpi.lookup "format" = some (.str "NaN") ∧
    sampleKpi.lookup "round" = some (.str "NaN") ∧
    sampleKpi.lookup "backend" = some (.str "NaN") :=
  C3_tcp_record_keys_and_nan_defaults sampleRaw _ _ sampleKpi rfl rfl rfl
    ⟨("TCP upload", sampleSeries), List.mem_singleton.mpr rfl, Or.inl rfl⟩

/-! ## Claim C7 -/

/-- C7: when a record holds both a `TCP upload` and a `TCP download`
series (both satisfying the input contract), the extractor's `type`, `bw`
and `msize` come from the series processed second in the series-map
iteration order — the second write overwrites the first. -/
theorem C7_last_write_wins
    (raw md sv1 sv2 : JValue) (fields l1 l2 l3 : List (String × JValue))
    (n1 n2 : String) (c1 c2 : String) (t1 t2 : List Char)
    (m1 m2 : JValue) (z1 z2 : Int)
    (h1 : raw.getKey? "metadata" = some md)
    (h2 : md.getKey? "SERIES_META" = some (.obj fields))
    (hfields : fields = l1 ++ (n1, sv1) :: (l2 ++ (n2, sv2) :: l3))
    (hn1 : n1 = "TCP upload" ∨ n1 = "TCP download")
    (hn2 : n2 = "TCP upload" ∨ n2 = "TCP download")
    (honly1 : ∀ p ∈ l1, ¬(p.1 = "TCP upload" ∨ p.1 = "TCP download"))
    (honly2 : ∀ p ∈ l2, ¬(p.1 = "TCP upload" ∨ p.1 = "TCP download"))
    (honly3 : ∀ p ∈ l3, ¬(p.1 = "TCP upload" ∨ p.1 = "TCP download"))
    (hcmd1 : sv1.getKey? "COMMAND" = some (.str c1))
    (htok1 : reSearchDashT c1.toList = some t1)
    (hunits1 : sv1.getKey? "UNITS" = some (.str "Mbits/s"))
    (hmv1 : sv1.getKey? "MEAN_VALUE" = some m1)
    (hss1 : sv1.getKey? "SEND_SIZE" = some (.int z1))
    (hcmd2 : sv2.getKey? "COMMAND" = some (.str c2))
    (htok2 : reSearchDashT c2.toList = some t2)
    (hunits2 : sv2.getKey? "UNITS" = some (.str "Mbits/s"))
    (hmv2 : sv2.getKey? "MEAN_VALUE" = some m2)
    (hss2 : sv2.getKey? "SEND_SIZE" = some (.int z2)) :
    ∃ kpi, get_kpis_from_raw_data raw = some kpi ∧
      kpi.lookup "type" = some (.str (String.mk t2)) ∧
      kpi.lookup "bw" = some m2 ∧
      kpi.lookup "msize" = some (.int (Int.fdiv z2 1024)) := by
  have hstep1 := tcpStep_some sv1 [] hcmd1 htok1 hunits1 hmv1 hss1 rfl
  have hstep2 : tcpStep sv2 [("type", .str (String.mk t1)), ("bw", m1),
      ("msize", .int (Int.fdiv z1 1024))] =
      some [("type", .str (String.mk t2)), ("bw", m2),
        ("msize", .int (Int.fdiv z2 1024))] := by
    rw [tcpStep_some sv2 _ hcmd2 htok2 hunits2 hmv2 hss2 rfl]
    rfl
  have hping1 : ¬(n1 = "Ping (ms) ICMP") := by
    rcases hn1 with h | h <;> subst h <;> simp
  have hping2 : ¬(n2 = "Ping (ms) ICMP") := by
    rcases hn2 with h | h <;> subst h <;> simp
  have hproc : processSeries fields [] =
      some [("type", .str (String.mk t2)), ("bw", m2),
        ("msize", .int (Int.fdiv z2 1024))] := by
    subst hfields
    rw [processSeries_skip l1 _ [] honly1]
    have e1 : processSeries ((n1, sv1) :: (l2 ++ (n2, sv2) :: l3)) [] =
        processSeries (l2 ++ (n2, sv2) :: l3)
          [("type", .str (String.mk t1)), ("bw", m1),
           ("msize", .int (Int.fdiv z1 1024))] := by
      simp only [processSeries, if_neg hping1, if_pos hn1, hstep1]
      rfl
    rw [e1, processSeries_skip l2 ((n2, sv2) :: l3) _ honly2]
    have e2 : processSeries ((n2, sv2) :: l3)
        [("type", .str (String.mk t1)), ("bw", m1),
         ("msize", .int (Int.fdiv z1 1024))] =
        processSeries l3 [("type", .str (String.mk t2)), ("bw", m2),
          ("msize", .int (Int.fdiv z2 1024))] := by
      simp only [processSeries, if_neg hping2, if_pos hn2, hstep2]
    rw [e2, processSeries_noTCP l3 _ honly3]
  have hget : get_kpis_from_raw_data raw =
      some (addContextDefaults [("type", .str (String.mk t2)), ("bw", m2),
        ("msize", .int (Int.fdiv z2 1024))]) := by
    simp only [get_kpis_from_raw_data, h1, h2, hproc]
  exact ⟨_, hget, rfl, rfl, rfl⟩

/-- C7 witness: a record with both TCP series; the download series comes
second and its values win. -/
theorem C7_last_write_wins_witness :
    ∃ kpi, get_kpis_from_raw_data dualRaw = some kpi ∧
      kpi.lookup "type" = some (.str "tcp_down") ∧
      kpi.lookup "bw" = some (.num (mkRat 8000 10)) ∧
      kpi.lookup "msize" = some (.int (Int.fdiv 65536 1024)) :=
  C7_last_write_wins dualRaw _ dualSeriesUp dualSeriesDown _ [] [] []
    "TCP upload" "TCP download" "flent -t tcp_up -l 60 host"
    "flent -t tcp_down -l 60 host" "tcp_up".toList "tcp_down".toList
    (.num (mkRat 9000 10)) (.num (mkRat 8000 10)) 131072 65536
    rfl rfl rfl (Or.inl rfl) (Or.inr rfl)
    (by intro p hp; simp at hp) (by intro p hp; simp at hp)
    (by intro p hp; simp at hp)
    rfl rfl rfl rfl rfl rfl rfl rfl rfl rfl

/-! ## Claim C2 -/

/-- C2: a raw record holding a TCP series whose `UNITS` is a string other
than `"Mbits/s"` fails extraction; the batch stage returns status 1 at
that record (any records after it are never reflected in the result), and
an end-to-end run containing that record exits 1 with no CSV produced. -/
theorem C2_unit_mismatch_fails_and_aborts
    (raw md sv : JValue) (fields : List (String × JValue)) (nm u : String)
    (h1 : raw.getKey? "metadata" = some md)
    (h2 : md.getKey? "SERIES_META" = some (.obj fields))
    (hmem : (nm, sv) ∈ fields)
    (hnm : nm = "TCP upload" ∨ nm = "TCP download")
    (hu : sv.getKey? "UNITS" = some (.str u))
    (hbad : u ≠ "Mbits/s") :
    get_kpis_from_raw_data raw = none ∧
    (∀ pre post acc, (∀ r ∈ pre, ∃ k, get_kpis_from_raw_data r = some k) →
      calculate_performance_kpis (pre ++ raw :: post) acc =
        (1, acc ++ pre.filterMap get_kpis_from_raw_data)) ∧
    (∀ fpre fpost : List (Option JValue),
      (∀ r ∈ fpre.filterMap id, ∃ k, get_kpis_from_raw_data r = some k) →
      generate_flent_test_report_fresh (fpre ++ some raw :: fpost) = (1, none)) := by
  have hnone : get_kpis_from_raw_data raw = none := by
    have hps := processSeries_none_of_bad hnm hu hbad fields hmem []
    simp [get_kpis_from_raw_data, h1, h2, hps]
  refine ⟨hnone, ?_, ?_⟩
  · intro pre post acc hall
    rw [calc_append pre acc hall (raw :: post)]
    simp [calculate_performance_kpis, hnone]
  · intro fpre fpost hall
    have hload : loadLoop (fpre ++ some raw :: fpost) [] =
        fpre.filterMap id ++ raw :: fpost.filterMap id := by
      rw [loadLoop_eq]
      simp [List.filterMap_append, List.filterMap_cons]
    have hcalc : calculate_performance_kpis
        (fpre.filterMap id ++ raw :: fpost.filterMap id) [] =
        (1, (fpre.filterMap id).filterMap get_kpis_from_raw_data) := by
      rw [calc_append (fpre.filterMap id) [] hall (raw :: fpost.filterMap id)]
      simp [calculate_performance_kpis, hnone]
    simp [generate_flent_test_report_fresh, generate_flent_test_report,
      load_raw_data_from_flent_logs, calculate_performance_kpis_method,
      hload, hcalc]

/-- C2 witness: a batch of one good record followed by the bad-units
record then another good record aborts with the one extracted KPI kept,
and the end-to-end run exits 1 with no CSV. -/
theorem C2_unit_mismatch_fails_and_aborts_witness :
    get_kpis_from_raw_data badUnitsRaw = none ∧
    (∀ pre post acc, (∀ r ∈ pre, ∃ k, get_kpis_from_raw_data r = some k) →
      calculate_performance_kpis (pre ++ badUnitsRaw :: post) acc =
        (1, acc ++ pre.filterMap get_kpis_from_raw_data)) ∧
    (∀ fpre fpost : List (Option JValue),
      (∀ r ∈ fpre.filterMap id, ∃ k, get_kpis_from_raw_data r = some k) →
      generate_flent_test_report_fresh (fpre ++ some badUnitsRaw :: fpost) =
        (1, none)) :=
  C2_unit_mismatch_fails_and_aborts badUnitsRaw _ badUnitsSeries _
    "TCP download" "Gbits/s" rfl rfl (List.mem_singleton.mpr rfl)
    (Or.inr rfl) rfl (by decide)

/-! ## Claim C9 -/

/-- C9: the batch KPI stage is not atomic on failure — when the record at
position `k` fails, the KPI list keeps the records appended for every
position before `k` (and the failure return leaves them in place). -/
theorem C9_partial_appends_kept
    (pre post : List JValue) (bad : JValue) (acc : List KpiDict)
    (hpre : ∀ r ∈ pre, ∃ k, get_kpis_from_raw_data r = some k)
    (hbad : get_kpis_from_raw_data bad = none) :
    calculate_performance_kpis (pre ++ bad :: post) acc =
      (1, acc ++ pre.filterMap get_kpis_from_raw_data) := by
  rw [calc_append pre acc hpre (bad :: post)]
  simp [calculate_performance_kpis, hbad]

/-- C9 witness: one good record, then a record without `metadata`, then
another good record: the failure result still carries the first KPI. -/
theorem C9_partial_appends_kept_witness :
    calculate_performance_kpis [sampleRaw, badRaw, sampleRaw] [] =
      (1, [sampleKpi]) :=
  C9_partial_appends_kept [sampleRaw] [sampleRaw] badRaw []
    (by intro r hr; obtain rfl := List.mem_singleton.mp hr
        exact ⟨sampleKpi, rfl⟩)
    rfl

/-! ## Claim C5 -/

/-- C5: the loader never fails once the path is supplied, and a file whose
contents do not parse contributes no raw record (the raw list gains
exactly the parsed files); in particular one unparsable file next to one
valid file produces the same run as the valid file alone, exiting 0. -/
theorem C5_parse_error_skipped
    (files : List (Option JValue)) (st : ClassState) (v : JValue)
    (hv : ∃ k, get_kpis_from_raw_data v = some k) :
    (load_raw_data_from_flent_logs files st).1 = 0 ∧
    (load_raw_data_from_flent_logs files st).2.raw_data_list =
      st.raw_data_list ++ files.filterMap id ∧
    generate_flent_test_report_fresh [none, some v] =
      generate_flent_test_report_fresh [some v] ∧
    (generate_flent_test_report_fresh [none, some v]).1 = 0 := by
  obtain ⟨k, hk⟩ := hv
  refine ⟨rfl, ?_, rfl, ?_⟩
  · simp [load_raw_data_from_flent_logs, loadLoop_eq]
  · simp [generate_flent_test_report_fresh, generate_flent_test_report,
      load_raw_data_from_flent_logs, loadLoop,
      calculate_performance_kpis_method, calculate_performance_kpis, hk]

/-- C5 witness: a directory with one unparsable and one valid file,
instantiated at the sample record. -/
theorem C5_parse_error_skipped_witness :
    (load_raw_data_from_flent_logs [none, some sampleRaw] ⟨[], []⟩).1 = 0 ∧
    (load_raw_data_from_flent_logs [none, some sampleRaw] ⟨[], []⟩).2.raw_data_list =
      ([] : List JValue) ++ [none, some sampleRaw].filterMap id ∧
    generate_flent_test_report_fresh [none, some sampleRaw] =
      generate_flent_test_report_fresh [some sampleRaw] ∧
    (generate_flent_test_report_fresh [none, some sampleRaw]).1 = 0 :=
  C5_parse_error_skipped [none, some sampleRaw] ⟨[], []⟩ sampleRaw
    ⟨sampleKpi, rfl⟩

/-! ## Claim C8 -/

/-- C8: when no file loads (the raw list, hence the KPI list, is empty)
the run still succeeds and the CSV is exactly the header line — the
leading index column plus the seven display-named columns, zero data
rows. -/
theorem C8_empty_kpi_header_only
    (files : List (Option JValue)) (h : files.filterMap id = []) :
    generate_flent_test_report_fresh files = (0, some (csvHeader ++ "\n")) := by
  have hload : loadLoop files [] = [] := by rw [loadLoop_eq]; simp [h]
  simp only [generate_flent_test_report_fresh, generate_flent_test_report,
    load_raw_data_from_flent_logs, hload]
  rfl

/-- C8 witness: an empty source directory. -/
theorem C8_empty_kpi_header_only_witness :
    (([] : List (Option JValue)).filterMap id = []) ∧
    generate_flent_test_report_fresh [] = (0, some (csvHeader ++ "\n")) :=
  ⟨rfl, C8_empty_kpi_header_only [] rfl⟩

/-! ## Claim C4 (corrected) -/

/-- C4 counterexample: two rows that tie on all six sort keys but differ
in bandwidth.  The sort is stable (pandas' multi-column sort is a stable
lexsort), so swapping the two tied input rows swaps them in the output:
the report is not independent of the input order. -/
theorem C4_tied_keys_counterexample :
    List.Perm [cexRow1, cexRow2] [cexRow2, cexRow1] ∧
    _format_report_dataframe [cexRow2, cexRow1] ≠
      _format_report_dataframe [cexRow1, cexRow2] := by
  refine ⟨List.Perm.swap cexRow2 cexRow1 [], ?_⟩
  intro h
  exact absurd
    (congrArg (fun rows => JValue.numVal ((rows.headD (roundRow cexRow1)).bw)) h)
    (by decide)

/-- C4 (amended): for every list of report rows whose six-key tuples are
pairwise non-equivalent, every permutation of the list formats to the same
report — under that hypothesis the row order is fully determined by the
six-key sort.  (With tied keys the stable sort preserves input order among
the tied rows, as the counterexample shows.) -/
theorem C4_report_order_input_independent
    (l l2 : List Row) (hperm : l.Perm l2)
    (hdist : l.Pairwise (fun a b => keysEqv a b = false)) :
    _format_report_dataframe l2 = _format_report_dataframe l := by
  have hsymm : ∀ {a b : Row}, keysEqv a b = false → keysEqv b a = false := by
    intro a b h
    rw [keysEqv_comm b a]
    exact h
  have hd1 : (sortReportRows l).Pairwise (fun a b => keysEqv a b = false) :=
    ((sortReportRows_perm l).pairwise_iff (fun h => hsymm h)).mpr hdist
  have hd2 : (sortReportRows l2).Pairwise (fun a b => keysEqv a b = false) :=
    (((sortReportRows_perm l2).trans hperm.symm).pairwise_iff
      (fun h => hsymm h)).mpr hdist
  have upgrade : ∀ {s : List Row}, List.Sorted rowLeP s →
      s.Pairwise (fun a b => keysEqv a b = false) → s.Pairwise rowLtP := by
    intro s hs hd
    refine (hs.and hd).imp ?_
    intro a b hab
    refine ⟨hab.1, fun hba => ?_⟩
    have hek := rowLe_both_keysEqv hab.1 hba
    rw [hab.2] at hek
    exact absurd hek (by simp)
  haveI : IsAntisymm Row rowLtP := ⟨fun a b hab hba => absurd hab.1 hba.2⟩
  have heq : sortReportRows l = sortReportRows l2 :=
    List.eq_of_perm_of_sorted
      ((sortReportRows_perm l).trans (hperm.trans (sortReportRows_perm l2).symm))
      (upgrade (sortReportRows_sorted l) hd1)
      (upgrade (sortReportRows_sorted l2) hd2)
  simp [_format_report_dataframe, heq]

/-- C4 witness: two rows with distinct six-key tuples (the `type` keys
differ); both input orders format identically. -/
theorem C4_report_order_input_independent_witness :
    ([wRowA, cexRow1].Pairwise (fun a b => keysEqv a b = false)) ∧
    _format_report_dataframe [cexRow1, wRowA] =
      _format_report_dataframe [wRowA, cexRow1] :=
  ⟨by decide,
   C4_report_order_input_independent [wRowA, cexRow1] [cexRow1, wRowA]
     (List.Perm.swap cexRow1 wRowA []) (by decide)⟩

/-! ## Claim C6 -/

/-- C6: every row of the formatted report is an input row with all numeric
cells rounded; in particular a float bandwidth `q` appears as `round4 q`,
an exact multiple of `1 / 10000` — four decimal places. -/
theorem C6_bandwidth_rounded_4dp (rows : List Row) (row : Row)
    (h : row ∈ _format_report_dataframe rows) :
    ∃ src ∈ rows, row = roundRow src ∧
      ∀ q, src.bw = .num q → row.bw = .num (round4 q) ∧
        ∃ n : ℤ, round4 q = (n : ℚ) / 10000 := by
  simp only [_format_report_dataframe] at h
  rcases List.mem_map.mp h with ⟨src, hsrc, heq⟩
  refine ⟨src, (sortReportRows_perm rows).subset hsrc, heq.symm, ?_⟩
  intro q hq
  constructor
  · rw [← heq]
    simp [roundRow, hq, jround4]
  · refine ⟨roundHalfEven4 q, ?_⟩
    rw [round4, Rat.mkRat_eq_div]
    norm_num

/-- C6 witness: MEAN_VALUE 123.456789 is reported as 123.4568. -/
theorem C6_bandwidth_rounded_4dp_witness :
    (roundRow c6Row ∈ _format_report_dataframe [c6Row]) ∧
    (∃ src ∈ [c6Row], roundRow c6Row = roundRow src ∧
      ∀ q, src.bw = .num q → (roundRow c6Row).bw = .num (round4 q) ∧
        ∃ n : ℤ, round4 q = (n : ℚ) / 10000) ∧
    (roundRow c6Row).bw = .num (mkRat 1234568 10000) := by
  have hmem : roundRow c6Row ∈ _format_report_dataframe [c6Row] := by
    show roundRow c6Row ∈ [roundRow c6Row]
    exact List.mem_singleton.mpr rfl
  exact ⟨hmem, C6_bandwidth_rounded_4dp [c6Row] (roundRow c6Row) hmem, rfl⟩

/-! ## Claim C10 -/

/-- C10: the raw-data and KPI accumulators are class-level shared state.
Instantiating a second reporter (`FlentTestReporter.new`) does not reset
them, so a second pipeline run appends to the lists the first run
populated: afterwards the raw list holds both runs' files and the KPI list
still starts with the first run's extractions (the second `calculate`
then re-walks the whole accumulated raw list). -/
theorem C10_class_state_accumulates
    (f1 f2 : List (Option JValue))
    (hall : ∀ r ∈ f1.filterMap id ++ f2.filterMap id,
      ∃ k, get_kpis_from_raw_data r = some k) :
    (pipeline_run f2 (FlentTestReporter.new (pipeline_run f1 ⟨[], []⟩))).raw_data_list =
      f1.filterMap id ++ f2.filterMap id ∧
    (pipeline_run f2 (FlentTestReporter.new (pipeline_run f1 ⟨[], []⟩))).perf_kpi_list =
      (f1.filterMap id).filterMap get_kpis_from_raw_data ++
        (f1.filterMap id ++ f2.filterMap id).filterMap get_kpis_from_raw_data := by
  have hall1 : ∀ r ∈ f1.filterMap id, ∃ k, get_kpis_from_raw_data r = some k :=
    fun r hr => hall r (List.mem_append_left _ hr)
  constructor <;>
    simp [pipeline_run, FlentTestReporter.new, load_raw_data_from_flent_logs,
      loadLoop_eq, calculate_performance_kpis_method,
      calc_success (f1.filterMap id) [] hall1,
      calc_success (f1.filterMap id ++ f2.filterMap id)
        ((f1.filterMap id).filterMap get_kpis_from_raw_data) hall]

/-- C10 witness: the same one-file directory processed by two successive
runs; the second run's state contains the first run's record and KPI. -/
theorem C10_class_state_accumulates_witness :
    (pipeline_run [some sampleRaw]
      (FlentTestReporter.new (pipeline_run [some sampleRaw] ⟨[], []⟩))).raw_data_list =
      [sampleRaw, sampleRaw] ∧
    (pipeline_run [some sampleRaw]
      (FlentTestReporter.new (pipeline_run [some sampleRaw] ⟨[], []⟩))).perf_kpi_list =
      [sampleKpi, sampleKpi, sampleKpi] :=
  C10_class_state_accumulates [some sampleRaw] [some sampleRaw]
    (by intro r hr
        have : r = sampleRaw := by simpa using hr
        subst this
        exact ⟨sampleKpi, rfl⟩)

end Flent
